import Mathlib

/-!
Verification of the YouTube Tools API service (src/main.py) against its
natural-language specification.

Strings are modelled as lists of characters (`Str`), so that all string
operations of the Python source (slicing, split, strip, join, formatting)
become structurally recursive Lean functions that are easy to evaluate and
to reason about by induction.

External collaborators (the urllib URL parser, the yt-dlp extraction
engine, the YouTubeTranscriptApi caption provider, the HTTP layer) are
black boxes per the specification: they enter the model as structured
inputs (parsed URL components, provider response values), while every line
of the repository itself is translated faithfully.
-/

/-- Strings as character lists. -/
abbrev Str := List Char

/-- Shorthand turning a Lean string literal into the character-list model. -/
def str (s : String) : Str := s.toList

/-- Result of running a piece of Python code: a value, or a raised
exception carrying its message. -/
inductive PyResult (α : Type) where
  | ok (a : α)
  | raised (msg : Str)
deriving DecidableEq

/-- Python `s.split(sep)` for a one-character separator `c`: splits at every
occurrence and keeps empty pieces, so the result is always non-empty
(`"".split(c) = [""]`). -/
def splitOnChar (c : Char) : Str → List Str
  | [] => [[]]
  | x :: xs =>
    match splitOnChar c xs with
    | [] => [[]]
    | h :: t => if x = c then [] :: h :: t else (x :: h) :: t

/-- Python `s.split(c, 1)` when `c` occurs: the part before the first
occurrence and the part after it; `none` when `c` is absent. -/
def splitFirst (c : Char) : Str → Option (Str × Str)
  | [] => none
  | x :: xs =>
    if x = c then some ([], xs)
    else (splitFirst c xs).map fun p => (x :: p.1, p.2)

/-- Value of a hexadecimal digit character, if it is one. -/
def hexVal (c : Char) : Option Nat :=
  if '0' ≤ c ∧ c ≤ '9' then some (c.toNat - '0'.toNat)
  else if 'a' ≤ c ∧ c ≤ 'f' then some (c.toNat - 'a'.toNat + 10)
  else if 'A' ≤ c ∧ c ≤ 'F' then some (c.toNat - 'A'.toNat + 10)
  else none

/-- Percent-decoding as `urllib.parse.unquote` performs it on ASCII data: a
`%` followed by two hex digits becomes the denoted character, any other `%`
is kept as-is. (The source only ever decodes query ids; multi-byte UTF-8
percent sequences are outside what the claims quantify over.) -/
def pyUnquote : Str → Str
  | [] => []
  | '%' :: a :: b :: rest =>
    match hexVal a, hexVal b with
    | some ha, some hb => Char.ofNat (16 * ha + hb) :: pyUnquote rest
    | _, _ => '%' :: pyUnquote (a :: b :: rest)
  | '%' :: rest => '%' :: pyUnquote rest
  | c :: rest => c :: pyUnquote rest

/-- The `.replace(plus, blank)` step `parse_qsl` applies before unquoting. -/
def plusToSpace : Str → Str :=
  List.map fun c => if c = '+' then ' ' else c

/-- `unquote(s.replace(plus, blank))` as `urllib.parse.parse_qsl` applies it
to each field name and value. -/
def unquotePlus (s : Str) : Str := pyUnquote (plusToSpace s)

/-- One field of a query string as `urllib.parse.parse_qsl` treats it with
the default `keep_blank_values=False`: empty fields, fields without a `=`
and fields with an empty raw value are dropped; kept fields are split at the
first `=` and both halves are plus-replaced and percent-decoded. -/
def qslPair (field : Str) : Option (Str × Str) :=
  if field = [] then none
  else
    match splitFirst '=' field with
    | none => none
    | some (n, v) => if v = [] then none else some (unquotePlus n, unquotePlus v)

/-- First value bound to `key` in an association list, scanning left to
right (the order `parse_qs` preserves). -/
def lookupFirst (key : Str) : List (Str × Str) → Option Str
  | [] => none
  | p :: rest => if p.1 = key then some p.2 else lookupFirst key rest

/-- `parse_qs(qs).get(key, [None])[0]` of the source, line 33-34: the first
value the query string binds to `key`, or `none`. -/
def parse_qs_first (qs : Str) (key : Str) : Option Str :=
  lookupFirst key ((splitOnChar '&' qs).filterMap qslPair)

/-- The components of `urllib.parse.urlparse(url)` that
`get_youtube_video_id` reads. The stdlib parser is an external collaborator
("parse url into scheme/host/path/query per standard URL syntax"); its
output hostname is `None` for URLs without a network location. Note that
the parser does not parse every string: CPython urlsplit raises
ValueError on a network location with mismatched square brackets, so some
malformed URLs never reach these components at all - `pyUrlparse` below
models that string-level entry, including its error path. -/
structure ParsedUrl where
  hostname : Option Str
  path : Str
  query : Str
deriving DecidableEq

/-- YouTubeTools.get_youtube_video_id, src/main.py lines 24-39, over the
parsed URL components. Python list indexing `split(slash)[2]` raises
IndexError when out of range, modelled by the `.raised` branch. -/
def get_youtube_video_id (pu : ParsedUrl) : PyResult (Option Str) :=
  match pu.hostname with
  | none => .ok none
  | some host =>
    if host = str "youtu.be" then .ok (some (pu.path.drop 1))
    else if host = str "www.youtube.com" ∨ host = str "youtube.com" then
      if pu.path = str "/watch" then .ok (parse_qs_first pu.query (str "v"))
      else if (str "/embed/").isPrefixOf pu.path then
        match (splitOnChar '/' pu.path).get? 2 with
        | some s => .ok (some s)
        | none => .raised (str "IndexError")
      else if (str "/v/").isPrefixOf pu.path then
        match (splitOnChar '/' pu.path).get? 2 with
        | some s => .ok (some s)
        | none => .raised (str "IndexError")
      else .ok none
    else .ok none

/-- Join query fields with a `&` separator: the shape of any query string in
terms of its fields (used to state claims about `parse_qs`). -/
def joinAmp : List Str → Str
  | [] => []
  | [p] => p
  | p :: q :: rest => p ++ '&' :: joinAmp (q :: rest)

/-- One segment of a JSON3 caption event (`event[segs][i]`): the optional
`utf8` text field the source reads. -/
structure Seg where
  utf8 : Option Str
deriving DecidableEq

/-- One JSON3 caption event as the source reads it: the optional `tStartMs`
start offset in milliseconds and the optional `segs` list. -/
structure Json3Event where
  tStartMs : Option Nat
  segs : Option (List Seg)
deriving DecidableEq

/-- A parsed JSON3 subtitle document: `subtitle_data.get(events, [])`. -/
structure Json3Doc where
  events : List Json3Event
deriving DecidableEq

/-- What one entry of `info[requested_subtitles]` contributes: its `data`
field may be absent or empty (falsy), may fail `json.loads` (the inner
try/except prints and continues), or parse to a JSON3 document. -/
inductive SubData where
  | missing
  | malformed
  | parsed (doc : Json3Doc)
deriving DecidableEq

/-- The inner loop of lines 116-118: `text += seg[utf8] + blank` over the
segments that carry a `utf8` field. -/
def segsText : List Seg → Str
  | [] => []
  | s :: rest =>
    match s.utf8 with
    | some t => t ++ ' ' :: segsText rest
    | none => segsText rest

/-- Lines 114-118 of get_video_captions: concatenate the segment texts of
every event that has a `segs` field. -/
def eventsText : List Json3Event → Str
  | [] => []
  | e :: rest =>
    match e.segs with
    | some segs => segsText segs ++ eventsText rest
    | none => eventsText rest

/-- Lines 107-120: `captions_text` accumulated over all subtitle tracks of
`requested_subtitles` (`none` models a falsy `requested_subtitles`). -/
def captionsTextOf : Option (List SubData) → Str
  | none => []
  | some tracks =>
    tracks.foldl
      (fun acc t =>
        match t with
        | SubData.parsed doc => acc ++ eventsText doc.events
        | _ => acc)
      []

/-- Python whitespace for `str.strip()` restricted to ASCII (the characters
caption text can carry through this code path). -/
def pySpace (c : Char) : Bool :=
  c == ' ' || c == '\t' || c == '\n' || c == '\r' || c == '\x0b' || c == '\x0c'

/-- Python `s.strip()`: whitespace removed from both ends. -/
def pyStrip (s : Str) : Str :=
  ((s.dropWhile pySpace).reverse.dropWhile pySpace).reverse

/-- Decimal digits of a natural number, as Python prints it. -/
def natStr (n : Nat) : Str := Nat.toDigits 10 n

/-- Python `str(n)` for an integer. -/
def intStr (n : Int) : Str :=
  if n < 0 then '-' :: natStr n.natAbs else natStr n.toNat

/-- The format specifier `02d` applied to an integer: pad with a zero to a
total width of two (for width two this agrees with Python on every
integer, since sign-aware padding only triggers on one-digit numbers). -/
def fmt02d (n : Int) : Str :=
  if (intStr n).length < 2 then '0' :: intStr n else intStr n

/-- Lines 179-189 applied to one kept event of the primary path:
`minutes, seconds = divmod(int(start_ms / 1000), 60)` and the f-string
`minutes:seconds02d - text` with the stripped text. `start_ms / 1000` is
Python float division; for the integer millisecond offsets of JSON3 its
truncation equals natural division by 1000. -/
def eventLine (ms : Nat) (text : Str) : Str :=
  natStr (ms / 1000 / 60) ++ ':' :: fmt02d (Int.ofNat (ms / 1000 % 60)) ++ str " - " ++ text

/-- The event loop of lines 177-189: walk the events of one parsed JSON3
document, appending a formatted line for every event that has both
`tStartMs` and `segs` and whose text is non-empty after stripping. -/
def primaryLoop (acc : List Str) : List Json3Event → List Str
  | [] => acc
  | e :: rest =>
    match e.tStartMs, e.segs with
    | some ms, some segs =>
      if pyStrip (segsText segs) = [] then primaryLoop acc rest
      else primaryLoop (acc ++ [eventLine ms (pyStrip (segsText segs))]) rest
    | _, _ => primaryLoop acc rest

/-- Lines 171-191: the `timestamps` list after the primary (yt-dlp) path,
accumulated across every parsed subtitle track. -/
def timestampsPrimary : Option (List SubData) → List Str
  | none => []
  | some tracks =>
    tracks.foldl
      (fun acc t =>
        match t with
        | SubData.parsed doc => primaryLoop acc doc.events
        | _ => acc)
      []

/-- One caption line as YouTubeTranscriptApi returns it: a float `start`
offset in seconds (modelled exactly as a rational) and a `text`. -/
structure TranscriptLine where
  start : Rat
  text : Str
deriving DecidableEq

/-- Python `int()` on a float value: truncation toward zero. -/
def pyInt (q : Rat) : Int := if 0 ≤ q then q.floor else q.ceil

/-- Lines 201-203 applied to one fallback caption line:
`minutes, seconds = divmod(int(line[start]), 60)` (Python divmod is
floored division) and the f-string with the raw, unstripped text. -/
def fallbackLine (l : TranscriptLine) : Str :=
  intStr (Int.fdiv (pyInt l.start) 60) ++ ':' :: fmt02d (Int.fmod (pyInt l.start) 60) ++ str " - " ++ l.text

/-- The fallback loop of lines 200-203: every line is appended, with no
empty-text check and no stripping. -/
def fallbackLoop (acc : List Str) : List TranscriptLine → List Str
  | [] => acc
  | l :: rest => fallbackLoop (acc ++ [fallbackLine l]) rest

/-- The expression `languages if languages else [en]` of lines 96 and 158:
the `subtitleslangs` option both caption endpoints hand to yt-dlp. -/
def subtitleslangsOf (languages : Option (List Str)) : List Str :=
  match languages with
  | some ls => if ls = [] then [str "en"] else ls
  | none => [str "en"]

/-- How YouTubeTranscriptApi.get_transcript is invoked: with an explicit
language preference list, or with the provider choosing its own default. -/
inductive TranscriptCall where
  | withLanguages (ls : List Str)
  | providerDefault
deriving DecidableEq

/-- Lines 132-135 of get_video_captions: `get_transcript(video_id,
languages=languages)` when `languages` is truthy, else `get_transcript(
video_id)` with the provider default. -/
def captionsFallbackCall (languages : Option (List Str)) : TranscriptCall :=
  match languages with
  | some ls => if ls = [] then .providerDefault else .withLanguages ls
  | none => .providerDefault

/-- Line 199 of get_video_timestamps: `languages or [en]`. -/
def timestampsFallbackLangs (languages : Option (List Str)) : List Str :=
  match languages with
  | some ls => if ls = [] then [str "en"] else ls
  | none => [str "en"]

/-- What a request handler answers: a value, or an HTTPException with its
status code and detail string. -/
inductive ApiResult (α : Type) where
  | ok (a : α)
  | httpError (status : Nat) (detail : Str)
deriving DecidableEq

/-- The status code of a response, `none` on success. -/
def statusOf {α : Type} : ApiResult α → Option Nat
  | .ok _ => none
  | .httpError s _ => some s

/-- The two black-box caption providers of one request, as functions of
what the source passes them: yt-dlp extraction keyed by the
`subtitleslangs` option (returning `requested_subtitles`, `none` when
falsy, or raising), whether youtube_transcript_api imported, and
get_transcript keyed by how it is called (returning caption lines or
raising). -/
structure CaptionProviders where
  extractSubs : List Str → PyResult (Option (List SubData))
  apiAvailable : Bool
  getTranscript : TranscriptCall → PyResult (List TranscriptLine)

/-- YouTubeTools.get_video_captions, src/main.py lines 82-142. The empty-url
check precedes the try block, so it alone yields a 400; every exception
raised inside the try block - including the HTTPException(400) of line 129
for an unresolvable URL - is caught by the blanket `except Exception` of
line 141 and re-raised as a 500 whose detail embeds `str(e)` (for an
HTTPException, `status_code: detail`). -/
def get_video_captions (url : Str) (pu : ParsedUrl) (P : CaptionProviders)
    (languages : Option (List Str)) : ApiResult Str :=
  if url = [] then .httpError 400 (str "No URL provided")
  else
    match P.extractSubs (subtitleslangsOf languages) with
    | .raised msg => .httpError 500 (str "Error getting captions for video: " ++ msg)
    | .ok subs =>
      if captionsTextOf subs = [] then
        if P.apiAvailable then
          match get_youtube_video_id pu with
          | .raised msg => .httpError 500 (str "Error getting captions for video: " ++ msg)
          | .ok vid =>
            match vid with
            | none => .httpError 500 (str "Error getting captions for video: 400: Invalid YouTube URL")
            | some v =>
              if v = [] then .httpError 500 (str "Error getting captions for video: 400: Invalid YouTube URL")
              else
                match P.getTranscript (captionsFallbackCall languages) with
                | .raised msg => .httpError 500 (str "Error getting captions for video: " ++ msg)
                | .ok captions =>
                  if captions = [] then .ok (str "No captions found for video")
                  else .ok (List.intercalate [' '] (captions.map TranscriptLine.text))
        else .ok (str "No captions found for video")
      else .ok (pyStrip (captionsTextOf subs))

/-- YouTubeTools.get_video_timestamps, src/main.py lines 144-207, with the
same exception structure as get_video_captions: the line 197
HTTPException(400) sits inside the try block and is re-wrapped as a 500 by
line 206-207. -/
def get_video_timestamps (url : Str) (pu : ParsedUrl) (P : CaptionProviders)
    (languages : Option (List Str)) : ApiResult (List Str) :=
  if url = [] then .httpError 400 (str "No URL provided")
  else
    match P.extractSubs (subtitleslangsOf languages) with
    | .raised msg => .httpError 500 (str "Error generating timestamps: " ++ msg)
    | .ok subs =>
      if timestampsPrimary subs = [] ∧ P.apiAvailable = true then
        match get_youtube_video_id pu with
        | .raised msg => .httpError 500 (str "Error generating timestamps: " ++ msg)
        | .ok vid =>
          match vid with
          | none => .httpError 500 (str "Error generating timestamps: 400: Invalid YouTube URL")
          | some v =>
            if v = [] then .httpError 500 (str "Error generating timestamps: 400: Invalid YouTube URL")
            else
              match P.getTranscript (.withLanguages (timestampsFallbackLangs languages)) with
              | .raised msg => .httpError 500 (str "Error generating timestamps: " ++ msg)
              | .ok captions => .ok (fallbackLoop (timestampsPrimary subs) captions)
      else .ok (timestampsPrimary subs)

/-- The claim-side description of the primary timestamp path: what one event
contributes, per the specification sentence (skip when the stripped text is
empty, otherwise one divmod-formatted line). -/
def primaryEventSpec (e : Json3Event) : Option Str :=
  match e.tStartMs, e.segs with
  | some ms, some segs =>
    if pyStrip (segsText segs) = [] then none
    else some (eventLine ms (pyStrip (segsText segs)))
  | _, _ => none

/-- The fixed field set of the `clean_data` record built at lines 65-77, in
source order. -/
def videoDataFields : List Str :=
  [str "title", str "channel", str "channel_url", str "upload_date",
   str "duration", str "view_count", str "like_count", str "thumbnail",
   str "description", str "categories", str "tags"]

/-- Lines 64-77 of get_video_data: the normalized record, one `info.get`
lookup per fixed field. `info` is the black-box provider record as a key
lookup function (`none` models an absent field, which Python renders as
null). -/
def clean_data {V : Type} (info : Str → Option V) : List (Str × Option V) :=
  videoDataFields.map fun k => (k, info k)

/-- YouTubeTools.get_video_data, src/main.py lines 41-80: empty url is a
400 before the try block; a raising provider is wrapped as a 500; otherwise
the normalized record is returned. -/
def get_video_data {V : Type} (url : Str) (provider : PyResult (Str → Option V)) :
    ApiResult (List (Str × Option V)) :=
  if url = [] then .httpError 400 (str "No URL provided")
  else
    match provider with
    | .raised msg => .httpError 500 (str "Error getting video data: " ++ msg)
    | .ok info => .ok (clean_data info)

/-- Lines 228-233 of get_available_subtitles: the `available_subs` dict.
`subs` models `info.get(subtitles)` and `autoCaps` models
`info.get(automatic_captions)`, each an optional dict given as an
association list (`some []` is a present-but-empty, hence falsy, dict). -/
def availableSubs {S : Type} (subs autoCaps : Option (List (Str × S))) :
    List (Str × List Str) :=
  (match subs with
   | some [] => []
   | some l => [(str "manual", l.map Prod.fst)]
   | none => []) ++
  (match autoCaps with
   | some [] => []
   | some l => [(str "automatic", l.map Prod.fst)]
   | none => [])

/-- YouTubeTools.get_available_subtitles, src/main.py lines 209-237. -/
def get_available_subtitles {S : Type} (url : Str)
    (provider : PyResult (Option (List (Str × S)) × Option (List (Str × S)))) :
    ApiResult (List (Str × List Str)) :=
  if url = [] then .httpError 400 (str "No URL provided")
  else
    match provider with
    | .raised msg => .httpError 500 (str "Error getting available subtitles: " ++ msg)
    | .ok (subs, autoCaps) => .ok (availableSubs subs autoCaps)

/-- One channel post as the scraper extracts it from a message bubble. -/
structure ChannelPost where
  post_id : Str
  text : Option Str
  image_url : Option Str
  video_url : Option Str
  datetime : Option Str
deriving DecidableEq

/-- What extracting one message bubble yields: a post, or a raised
extraction error (which the spec says is contained and skipped). -/
inductive BubbleExtract where
  | ok (p : ChannelPost)
  | failed
deriving DecidableEq

/-- A channel result: a post list on success, an error record on a failed
fetch. -/
inductive ChannelResult where
  | posts (l : List ChannelPost)
  | errorRecord (msg : Str)
deriving DecidableEq

/-- The overall response of the channel-posts operation. -/
inductive ChannelsResponse where
  | ok (m : List (Str × ChannelResult))
  | invalidInput
deriving DecidableEq

/-- Modelled from the spec: the Telegram channel scraper (ChannelPostScraper
of spec section 4.4) is not among the repository files under src/, so its
per-request world is modelled from the specification text: the HTTP status
each channel preview fetch returns, and the page-order bubble extraction
outcomes of each channel page. -/
structure ChannelWorld where
  status : Str → Nat
  bubbles : Str → List BubbleExtract

/-- Modelled from the spec: scraping one channel, per spec section 4.4
steps 2-5: a non-2xx status yields the error record `Failed to fetch
channel: status`; otherwise every bubble is best-effort extracted, a bubble
whose extraction throws is skipped silently, and the page-order list is
reversed once. -/
def scrapeChannel (w : ChannelWorld) (name : Str) : ChannelResult :=
  if 200 ≤ w.status name ∧ w.status name < 300 then
    ChannelResult.posts
      (((w.bubbles name).filterMap fun b =>
        match b with
        | BubbleExtract.ok p => some p
        | BubbleExtract.failed => none).reverse)
  else ChannelResult.errorRecord (str "Failed to fetch channel: " ++ natStr (w.status name))

/-- Modelled from the spec: fetchChannelPosts of spec section 4.4. An empty
name list is InvalidInput; otherwise each requested channel is scraped
independently and the result mapping has exactly one entry per requested
name. -/
def fetchChannelPosts (w : ChannelWorld) (names : List Str) : ChannelsResponse :=
  if names = [] then .invalidInput
  else .ok (names.map fun n => (n, scrapeChannel w n))

/-- ASCII lowercasing, as CPython str.lower acts on the ASCII hostnames
this service handles. -/
def pyLower (s : Str) : Str := s.map Char.toLower

/-- Membership in urllib scheme_chars: ASCII letters, digits, plus, minus
and dot. -/
def isSchemeChar (c : Char) : Bool :=
  c.isAlpha || c.isDigit || c == '+' || c == '-' || c == '.'

/-- The scheme test of CPython urlsplit: the text before the first colon
counts as a scheme when it is non-empty, starts with an ASCII letter and
consists of scheme characters only. -/
def schemeOk : Str → Bool
  | [] => false
  | c :: rest => c.isAlpha && (c :: rest).all isSchemeChar

/-- `netloc.rpartition(at)[2]`: the part after the last at-sign (the whole
string when there is none). -/
def afterLastAt (s : Str) : Str := (s.reverse.takeWhile fun c => c ≠ '@').reverse

/-- The hostname property of a CPython parse result: drop userinfo up to
the last at-sign; inside square brackets take the text before the closing
bracket, otherwise take the text before the first colon; an empty hostname
is None; lowercase (a percent-separated IPv6 zone suffix is kept as-is). -/
def pyHostname (netloc : Str) : Option Str :=
  let hostinfo := afterLastAt netloc
  let hostname :=
    match splitFirst '[' hostinfo with
    | some (_, bracketed) => bracketed.takeWhile fun c => c ≠ ']'
    | none => hostinfo.takeWhile fun c => c ≠ ':'
  if hostname = [] then none
  else
    match splitFirst '%' hostname with
    | some (pre, zone) => some (pyLower pre ++ '%' :: zone)
    | none => some (pyLower hostname)

/-- CPython `urllib.parse.urlparse`, modelled from the stdlib source for
the behaviors `get_youtube_video_id` depends on: strip leading control or
space characters and remove tab, CR and LF; split off a well-formed scheme
at the first colon; when the remainder starts with two slashes, take the
network location up to the first slash, question mark or hash, and raise
`ValueError: Invalid IPv6 URL` when it contains a square bracket without
its partner (the raise of CPython urlsplit that makes the parse step
non-total); split off a fragment at the first hash, then a query at the
first question mark; extract the hostname from the network location.
Outside the modelled scope (none of it touched by the theorems below, and
none of it reachable from ASCII YouTube URLs): the extra validation newer
CPython applies to bracket-matched hosts, non-ASCII network-location
checks, and the params split at a semicolon in the last path segment. -/
def pyUrlparse (url : Str) : PyResult ParsedUrl :=
  let u0 := (url.dropWhile fun c => c.toNat ≤ 0x20).filter fun c => ¬ (c = '\t' ∨ c = '\r' ∨ c = '\n')
  let u1 :=
    match splitFirst ':' u0 with
    | some (pre, post) => if schemeOk pre then post else u0
    | none => u0
  match u1 with
  | '/' :: '/' :: rest =>
    let netloc := rest.takeWhile fun c => ¬ (c = '/' ∨ c = '?' ∨ c = '#')
    let rest2 := rest.dropWhile fun c => ¬ (c = '/' ∨ c = '?' ∨ c = '#')
    if ('[' ∈ netloc ∧ ']' ∉ netloc) ∨ (']' ∈ netloc ∧ '[' ∉ netloc) then
      PyResult.raised (str "ValueError: Invalid IPv6 URL")
    else
      let beforeFrag :=
        match splitFirst '#' rest2 with
        | some (pre, _) => pre
        | none => rest2
      match splitFirst '?' beforeFrag with
      | some (pre, post) => PyResult.ok ⟨pyHostname netloc, pre, post⟩
      | none => PyResult.ok ⟨pyHostname netloc, beforeFrag, []⟩
  | _ =>
    let beforeFrag :=
      match splitFirst '#' u1 with
      | some (pre, _) => pre
      | none => u1
    match splitFirst '?' beforeFrag with
    | some (pre, post) => PyResult.ok ⟨none, pre, post⟩
    | none => PyResult.ok ⟨none, beforeFrag, []⟩

/-- get_youtube_video_id as called on a raw URL string, src/main.py line
26 onward: `urlparse(url)` runs first and its exception, when it raises,
propagates out of the function unprotected; otherwise the body runs on the
parsed components. -/
def get_youtube_video_id_url (url : Str) : PyResult (Option Str) :=
  match pyUrlparse url with
  | .raised msg => .raised msg
  | .ok pu => get_youtube_video_id pu

theorem splitOnChar_ne_nil (c : Char) (l : Str) : splitOnChar c l ≠ [] := by
  cases l with
  | nil => simp [splitOnChar]
  | cons x xs =>
    simp only [splitOnChar]
    cases h : splitOnChar c xs with
    | nil => simp
    | cons a t => by_cases hx : x = c <;> simp [hx]

theorem splitOnChar_cons_self (c : Char) (l : Str) :
    splitOnChar c (c :: l) = [] :: splitOnChar c l := by
  simp only [splitOnChar]
  cases h : splitOnChar c l with
  | nil => exact absurd h (splitOnChar_ne_nil c l)
  | cons a t => simp

theorem splitOnChar_not_mem {c : Char} {l : Str} (h : c ∉ l) : splitOnChar c l = [l] := by
  induction l with
  | nil => rfl
  | cons x xs ih =>
    have hx : ¬ (x = c) := fun hh => h (by simp [hh])
    have hxs : c ∉ xs := fun hm => h (List.mem_cons_of_mem _ hm)
    simp only [splitOnChar, ih hxs]
    simp [hx]

theorem splitOnChar_append_cons {c : Char} {x : Str} (hx : c ∉ x) (r : Str) :
    splitOnChar c (x ++ c :: r) = x :: splitOnChar c r := by
  induction x with
  | nil => simpa using splitOnChar_cons_self c r
  | cons y ys ih =>
    have hy : ¬ (y = c) := fun hh => hx (by simp [hh])
    have hys : c ∉ ys := fun hm => hx (List.mem_cons_of_mem _ hm)
    simp only [List.cons_append, splitOnChar, List.append_eq]
    rw [ih hys]
    simp [hy]

theorem one_le_splitOnChar_length (c : Char) (l : Str) : 1 ≤ (splitOnChar c l).length :=
  List.length_pos.mpr (splitOnChar_ne_nil c l)

theorem splitOnChar_joinAmp {parts : List Str} (hne : parts ≠ [])
    (h : ∀ p ∈ parts, '&' ∉ p) : splitOnChar '&' (joinAmp parts) = parts := by
  induction parts with
  | nil => exact absurd rfl hne
  | cons p rest ih =>
    cases rest with
    | nil => exact splitOnChar_not_mem (h p (by simp))
    | cons q rest2 =>
      have hj : joinAmp (p :: q :: rest2) = p ++ '&' :: joinAmp (q :: rest2) := rfl
      rw [hj, splitOnChar_append_cons (h p (by simp)),
        ih (by simp) (fun x hx => h x (List.mem_cons_of_mem _ hx))]

theorem lookupFirst_append_not_key {key : Str} {l1 l2 : List (Str × Str)}
    (h : ∀ p ∈ l1, p.1 ≠ key) : lookupFirst key (l1 ++ l2) = lookupFirst key l2 := by
  induction l1 with
  | nil => rfl
  | cons p rest ih =>
    simp only [List.cons_append, lookupFirst, List.append_eq]
    rw [if_neg (h p (by simp)), ih (fun x hx => h x (List.mem_cons_of_mem _ hx))]

theorem lookupFirst_eq_none {key : Str} {l : List (Str × Str)}
    (h : ∀ p ∈ l, p.1 ≠ key) : lookupFirst key l = none := by
  induction l with
  | nil => rfl
  | cons p rest ih =>
    simp only [lookupFirst]
    rw [if_neg (h p (by simp)), ih (fun x hx => h x (List.mem_cons_of_mem _ hx))]

theorem plusToSpace_not_mem {s : Str} (h : '+' ∉ s) : plusToSpace s = s := by
  induction s with
  | nil => rfl
  | cons c rest ih =>
    have hc : ¬ (c = '+') := fun hh => h (by simp [hh])
    have hrest : '+' ∉ rest := fun hm => h (List.mem_cons_of_mem _ hm)
    simp only [plusToSpace, List.map_cons] at ih ⊢
    rw [if_neg hc, ih hrest]

theorem pyUnquote_cons_ne {c : Char} (hc : c ≠ '%') (rest : Str) :
    pyUnquote (c :: rest) = c :: pyUnquote rest := by
  cases rest with
  | nil => simp [pyUnquote, hc]
  | cons a rest1 =>
    cases rest1 with
    | nil => simp [pyUnquote, hc]
    | cons b rest2 => simp [pyUnquote, hc]

theorem pyUnquote_not_mem {s : Str} (h : '%' ∉ s) : pyUnquote s = s := by
  induction s with
  | nil => rfl
  | cons c rest ih =>
    have hc : c ≠ '%' := fun hh => h (by simp [hh])
    have hrest : '%' ∉ rest := fun hm => h (List.mem_cons_of_mem _ hm)
    rw [pyUnquote_cons_ne hc, ih hrest]

theorem unquotePlus_plain {s : Str} (hp : '%' ∉ s) (hplus : '+' ∉ s) :
    unquotePlus s = s := by
  unfold unquotePlus
  rw [plusToSpace_not_mem hplus, pyUnquote_not_mem hp]

theorem qslPair_vfield {id : Str} (hne : id ≠ []) (hp : '%' ∉ id) (hplus : '+' ∉ id) :
    qslPair (str "v=" ++ id) = some (str "v", id) := by
  have hfield : str "v=" ++ id = 'v' :: '=' :: id := rfl
  rw [hfield]
  have h1 : splitFirst '=' ('v' :: '=' :: id) = some (['v'], id) := by
    simp [splitFirst]
  simp only [qslPair]
  rw [if_neg (by simp), h1]
  simp only
  rw [if_neg hne, unquotePlus_plain hp hplus]
  have hv : unquotePlus ['v'] = ['v'] := by decide
  rw [hv]
  rfl

theorem two_le_splitOnChar_length {c : Char} {l : Str} (h : c ∈ l) :
    2 ≤ (splitOnChar c l).length := by
  induction l with
  | nil => cases h
  | cons x xs ih =>
    by_cases hx : x = c
    · subst hx
      rw [splitOnChar_cons_self]
      have h1 := one_le_splitOnChar_length x xs
      simp only [List.length_cons]
      omega
    · have hm : c ∈ xs := by
        rcases List.mem_cons.mp h with h1 | h1
        · exact absurd h1.symm hx
        · exact h1
      have h2 := ih hm
      simp only [splitOnChar]
      cases hs : splitOnChar c xs with
      | nil => exact absurd hs (splitOnChar_ne_nil c xs)
      | cons a t =>
        rw [hs] at h2
        simp only [List.length_cons] at h2
        simp [hx]
        omega

/-- C5 counterexample: for host youtu.be with the bare path `/`, the source
(line 30, `parsed_url.path[1:]`) returns the empty string as a found
identifier; the claim says an empty segment yields NotFound (None), which
is a different value. -/
theorem C5_counterexample :
    get_youtube_video_id ⟨some (str "youtu.be"), str "/", []⟩ = PyResult.ok (some [])
  ∧ get_youtube_video_id ⟨some (str "youtu.be"), str "/", []⟩ ≠ PyResult.ok none := by
  decide

/-- C5 (amended): for every URL whose host equals youtu.be, resolve returns
the path with its leading slash stripped as a found identifier - including
the empty identifier when the path is empty or a bare slash; it never
returns NotFound for this host. -/
theorem C5_youtu_be_strips_slash (path q : Str) :
    get_youtube_video_id ⟨some (str "youtu.be"), path, q⟩
      = PyResult.ok (some (path.drop 1)) := by
  simp [get_youtube_video_id]

/-- Helper: the body of get_youtube_video_id is total over every parsed
URL component triple: the repository code after the urlparse step never
raises, and in particular the `split(slash)[2]` indexing on `/embed/` and
`/v/` paths is always in range, because such a path contains at least two
slashes and therefore splits into at least three segments. (Totality of
the string-level entry is a different matter: see the C6 theorems, since
the urlparse step itself can raise.) -/
theorem resolver_total_after_parse (pu : ParsedUrl) (msg : Str) :
    get_youtube_video_id pu ≠ PyResult.raised msg := by
  obtain ⟨host, path, query⟩ := pu
  cases host with
  | none => simp [get_youtube_video_id]
  | some h =>
    simp only [get_youtube_video_id]
    by_cases h1 : h = str "youtu.be"
    · simp [h1]
    · rw [if_neg h1]
      by_cases h2 : h = str "www.youtube.com" ∨ h = str "youtube.com"
      · rw [if_pos h2]
        by_cases h3 : path = str "/watch"
        · simp [h3]
        · rw [if_neg h3]
          by_cases h4 : (str "/embed/").isPrefixOf path
          · rw [if_pos h4]
            obtain ⟨t, ht⟩ := List.isPrefixOf_iff_prefix.mp h4
            have hshape : path = '/' :: ('e' :: 'm' :: 'b' :: 'e' :: 'd' :: '/' :: t) := by
              rw [← ht]; rfl
            have hlen : 2 < (splitOnChar '/' path).length := by
              rw [hshape, splitOnChar_cons_self]
              have hm : '/' ∈ ('e' :: 'm' :: 'b' :: 'e' :: 'd' :: '/' :: t) := by simp
              have h5 := two_le_splitOnChar_length hm
              simp only [List.length_cons]
              omega
            cases hq : (splitOnChar '/' path).get? 2 with
            | none =>
              have := List.get?_eq_none.mp hq
              omega
            | some s => simp [hq]
          · rw [if_neg h4]
            by_cases h6 : (str "/v/").isPrefixOf path
            · rw [if_pos h6]
              obtain ⟨t, ht⟩ := List.isPrefixOf_iff_prefix.mp h6
              have hshape : path = '/' :: ('v' :: '/' :: t) := by
                rw [← ht]; rfl
              have hlen : 2 < (splitOnChar '/' path).length := by
                rw [hshape, splitOnChar_cons_self]
                have hm : '/' ∈ ('v' :: '/' :: t) := by simp
                have h5 := two_le_splitOnChar_length hm
                simp only [List.length_cons]
                omega
              cases hq : (splitOnChar '/' path).get? 2 with
              | none =>
                have := List.get?_eq_none.mp hq
                omega
              | some s => simp [hq]
            · simp [h6]
      · simp [h2]

theorem host_ne_youtu_be {host : Str}
    (h : host = str "youtube.com" ∨ host = str "www.youtube.com") :
    host ≠ str "youtu.be" := by
  rcases h with h | h <;> subst h <;> decide

/-- C1: every recognized URL shape resolves to exactly its id, and the
unrecognized cases resolve to NotFound: (1) host youtu.be with path slash-id;
(2) host youtube.com or www.youtube.com, path `/watch`, query holding `v=id`
with no earlier `v` binding (first occurrence wins); (3) path `/embed/id`;
(4) path `/v/id`; (5) any other named host; (6) no host at all (malformed);
(7) `/watch` whose query binds no `v`. -/
theorem C1_recognized_shapes :
    (∀ id q, get_youtube_video_id ⟨some (str "youtu.be"), '/' :: id, q⟩
      = PyResult.ok (some id))
  ∧ (∀ host pre post id,
      (host = str "youtube.com" ∨ host = str "www.youtube.com") →
      (∀ f ∈ pre, ∀ p, qslPair f = some p → p.1 ≠ str "v") →
      (∀ f ∈ pre, '&' ∉ f) → (∀ f ∈ post, '&' ∉ f) →
      id ≠ [] → '&' ∉ id → '%' ∉ id → '+' ∉ id →
      get_youtube_video_id
        ⟨some host, str "/watch", joinAmp (pre ++ (str "v=" ++ id) :: post)⟩
        = PyResult.ok (some id))
  ∧ (∀ host id q,
      (host = str "youtube.com" ∨ host = str "www.youtube.com") → '/' ∉ id →
      get_youtube_video_id ⟨some host, str "/embed/" ++ id, q⟩
        = PyResult.ok (some id))
  ∧ (∀ host id q,
      (host = str "youtube.com" ∨ host = str "www.youtube.com") → '/' ∉ id →
      get_youtube_video_id ⟨some host, str "/v/" ++ id, q⟩
        = PyResult.ok (some id))
  ∧ (∀ host path q,
      host ≠ str "youtu.be" → host ≠ str "youtube.com" →
      host ≠ str "www.youtube.com" →
      get_youtube_video_id ⟨some host, path, q⟩ = PyResult.ok none)
  ∧ (∀ path q, get_youtube_video_id ⟨none, path, q⟩ = PyResult.ok none)
  ∧ (∀ host fields,
      (host = str "youtube.com" ∨ host = str "www.youtube.com") →
      (∀ f ∈ fields, ∀ p, qslPair f = some p → p.1 ≠ str "v") →
      (∀ f ∈ fields, '&' ∉ f) → fields ≠ [] →
      get_youtube_video_id ⟨some host, str "/watch", joinAmp fields⟩
        = PyResult.ok none) := by
  refine ⟨?_, ?_, ?_, ?_, ?_, ?_, ?_⟩
  · intro id q
    simp [get_youtube_video_id]
  · intro host pre post id hhost hprev hpreamp hpostamp hne hamp hp hplus
    have h1 := host_ne_youtu_be hhost
    simp only [get_youtube_video_id]
    rw [if_neg h1, if_pos hhost.symm]
    simp only [if_true]
    have hvamp : '&' ∉ str "v=" ++ id := by
      intro hm
      rcases List.mem_append.mp hm with h | h
      · exact absurd h (by decide)
      · exact hamp h
    have hparts : ∀ p ∈ pre ++ (str "v=" ++ id) :: post, '&' ∉ p := by
      intro p hmem
      rcases List.mem_append.mp hmem with h | h
      · exact hpreamp p h
      · rcases List.mem_cons.mp h with h | h
        · rw [h]; exact hvamp
        · exact hpostamp p h
    have hnenil : pre ++ (str "v=" ++ id) :: post ≠ [] := by simp
    unfold parse_qs_first
    rw [splitOnChar_joinAmp hnenil hparts, List.filterMap_append,
      List.filterMap_cons_some (qslPair_vfield hne hp hplus)]
    have hfiltered : ∀ p ∈ pre.filterMap qslPair, p.1 ≠ str "v" := by
      intro p hmem
      obtain ⟨f, hf, hq⟩ := List.mem_filterMap.mp hmem
      exact hprev f hf p hq
    rw [lookupFirst_append_not_key hfiltered]
    simp [lookupFirst]
  · intro host id q hhost hid
    have h1 := host_ne_youtu_be hhost
    simp only [get_youtube_video_id]
    rw [if_neg h1, if_pos hhost.symm]
    have h3 : ¬ (str "/embed/" ++ id = str "/watch") := by
      intro hcontra
      have h5 : ('/' :: 'e' :: 'm' :: 'b' :: 'e' :: 'd' :: '/' :: id)
          = ('/' :: 'w' :: 'a' :: 't' :: 'c' :: 'h' :: []) := hcontra
      simp at h5
    rw [if_neg h3]
    have h4 : (str "/embed/").isPrefixOf (str "/embed/" ++ id) = true :=
      List.isPrefixOf_iff_prefix.mpr (List.prefix_append _ _)
    rw [if_pos h4]
    have hsplit : splitOnChar '/' (str "/embed/" ++ id) = [[], str "embed", id] := by
      have hshape : str "/embed/" ++ id = '/' :: (str "embed" ++ '/' :: id) := rfl
      rw [hshape, splitOnChar_cons_self, splitOnChar_append_cons (by decide) id,
        splitOnChar_not_mem hid]
    rw [hsplit]
    rfl
  · intro host id q hhost hid
    have h1 := host_ne_youtu_be hhost
    simp only [get_youtube_video_id]
    rw [if_neg h1, if_pos hhost.symm]
    have h3 : ¬ (str "/v/" ++ id = str "/watch") := by
      intro hcontra
      have h5 : ('/' :: 'v' :: '/' :: id)
          = ('/' :: 'w' :: 'a' :: 't' :: 'c' :: 'h' :: []) := hcontra
      simp at h5
    rw [if_neg h3]
    have h4 : (str "/embed/").isPrefixOf (str "/v/" ++ id) = false := rfl
    rw [if_neg (by simp [h4])]
    have h6 : (str "/v/").isPrefixOf (str "/v/" ++ id) = true :=
      List.isPrefixOf_iff_prefix.mpr (List.prefix_append _ _)
    rw [if_pos h6]
    have hsplit : splitOnChar '/' (str "/v/" ++ id) = [[], ['v'], id] := by
      have hshape : str "/v/" ++ id = '/' :: (['v'] ++ '/' :: id) := rfl
      rw [hshape, splitOnChar_cons_self, splitOnChar_append_cons (by decide) id,
        splitOnChar_not_mem hid]
    rw [hsplit]
    rfl
  · intro host path q h1 h2 h3
    simp only [get_youtube_video_id]
    rw [if_neg h1, if_neg (by rintro (h | h); exact h3 h; exact h2 h)]
  · intro path q
    rfl
  · intro host fields hhost hnov hamp hnenil
    have h1 := host_ne_youtu_be hhost
    simp only [get_youtube_video_id]
    rw [if_neg h1, if_pos hhost.symm]
    simp only [if_true]
    unfold parse_qs_first
    rw [splitOnChar_joinAmp hnenil hamp]
    have hfiltered : ∀ p ∈ fields.filterMap qslPair, p.1 ≠ str "v" := by
      intro p hmem
      obtain ⟨f, hf, hq⟩ := List.mem_filterMap.mp hmem
      exact hnov f hf p hq
    rw [lookupFirst_eq_none hfiltered]

/-- C1 witness: the theorem instantiated at concrete URLs (including the
specification's own examples), every hypothesis discharged by evaluation. -/
theorem C1_recognized_shapes_witness :
    get_youtube_video_id ⟨some (str "youtu.be"), '/' :: str "abc123", []⟩
      = PyResult.ok (some (str "abc123"))
  ∧ get_youtube_video_id
      ⟨some (str "www.youtube.com"), str "/watch",
        joinAmp ([str "t=5"] ++ (str "v=" ++ str "xyz") :: [])⟩
      = PyResult.ok (some (str "xyz"))
  ∧ get_youtube_video_id ⟨some (str "youtube.com"), str "/embed/" ++ str "dQw4", []⟩
      = PyResult.ok (some (str "dQw4"))
  ∧ get_youtube_video_id ⟨some (str "youtube.com"), str "/v/" ++ str "id1", []⟩
      = PyResult.ok (some (str "id1"))
  ∧ get_youtube_video_id ⟨some (str "example.com"), str "/watch", str "v=xyz"⟩
      = PyResult.ok none
  ∧ get_youtube_video_id ⟨none, str "nonsense", []⟩ = PyResult.ok none
  ∧ get_youtube_video_id ⟨some (str "youtube.com"), str "/watch", joinAmp [str "t=5"]⟩
      = PyResult.ok none := by
  have hthm := C1_recognized_shapes
  have hprev1 : ∀ f ∈ [str "t=5"], ∀ p : Str × Str, qslPair f = some p → p.1 ≠ str "v" := by
    intro f hf p hq
    have hf2 : f = str "t=5" := by simpa using hf
    subst hf2
    have hcomp : qslPair (str "t=5") = some (str "t", str "5") := by decide
    rw [hcomp] at hq
    rw [← Option.some.inj hq]
    decide
  exact ⟨hthm.1 (str "abc123") [],
    hthm.2.1 (str "www.youtube.com") [str "t=5"] [] (str "xyz") (Or.inr rfl) hprev1
      (by decide) (by decide) (by decide) (by decide) (by decide) (by decide),
    hthm.2.2.1 (str "youtube.com") (str "dQw4") [] (Or.inl rfl) (by decide),
    hthm.2.2.2.1 (str "youtube.com") (str "id1") [] (Or.inl rfl) (by decide),
    hthm.2.2.2.2.1 (str "example.com") (str "/watch") (str "v=xyz")
      (by decide) (by decide) (by decide),
    hthm.2.2.2.2.2.1 (str "nonsense") [],
    hthm.2.2.2.2.2.2 (str "youtube.com") [str "t=5"] (Or.inl rfl) hprev1
      (by decide) (by decide)⟩

/-- C2 counterexample: on the fallback provider path the source (lines
199-203) appends a line for every caption event with no empty-text check,
so an event whose text is empty still produces the line `0:03 - ` - the
claim predicts the event is skipped on both paths, which would yield the
empty list. -/
theorem C2_fallback_keeps_empty_text :
    get_video_timestamps (str "https://youtu.be/abc")
      ⟨some (str "youtu.be"), str "/abc", []⟩
      ⟨fun _ => PyResult.ok none, true, fun _ => PyResult.ok [⟨(3 : Rat), []⟩]⟩ none
      = ApiResult.ok [str "0:03 - "]
  ∧ ApiResult.ok [str "0:03 - "] ≠ ApiResult.ok ([] : List Str) := by
  decide

/-- C2 (amended): on the primary path each event with both `tStartMs` and
`segs` contributes `divmod(int(tStartMs / 1000), 60)` formatted as
`minutes:seconds02d - text` with the stripped text, events empty after
trimming are skipped, and order is preserved (the loop equals an
order-preserving filterMap); on the fallback path every event contributes a
line with the raw untrimmed text and no empty-text skipping, using
`divmod(int(start), 60)`; and when both providers yield zero events (the
URL resolving whenever the fallback is consulted) the operation returns the
empty list, not an error. -/
theorem C2_timestamp_formatting :
    (∀ acc events, primaryLoop acc events = acc ++ events.filterMap primaryEventSpec)
  ∧ (∀ acc lines, fallbackLoop acc lines = acc ++ lines.map fallbackLine)
  ∧ (∀ url pu P languages subs vid,
      url ≠ [] →
      P.extractSubs (subtitleslangsOf languages) = PyResult.ok subs →
      timestampsPrimary subs = [] →
      (P.apiAvailable = true →
        get_youtube_video_id pu = PyResult.ok (some vid) ∧ vid ≠ [] ∧
        P.getTranscript (TranscriptCall.withLanguages (timestampsFallbackLangs languages))
          = PyResult.ok []) →
      get_video_timestamps url pu P languages = ApiResult.ok []) := by
  refine ⟨?_, ?_, ?_⟩
  · intro acc events
    induction events generalizing acc with
    | nil => simp [primaryLoop]
    | cons e rest ih =>
      rcases e with ⟨ms?, segs?⟩
      cases ms? with
      | none =>
        cases segs? <;> simp [primaryLoop, primaryEventSpec, ih]
      | some ms =>
        cases segs? with
        | none => simp [primaryLoop, primaryEventSpec, ih]
        | some segs =>
          by_cases hstrip : pyStrip (segsText segs) = [] <;>
            simp [primaryLoop, primaryEventSpec, hstrip, ih]
  · intro acc lines
    induction lines generalizing acc with
    | nil => simp [fallbackLoop]
    | cons l rest ih => simp [fallbackLoop, ih]
  · intro url pu P languages subs vid hurl hsubs hprim hapi
    unfold get_video_timestamps
    rw [if_neg hurl, hsubs]
    dsimp only
    cases hav : P.apiAvailable with
    | false =>
      rw [if_neg (by simp)]
      rw [hprim]
    | true =>
      obtain ⟨hres, hv, htr⟩ := hapi hav
      rw [if_pos ⟨hprim, rfl⟩, hres]
      dsimp only
      rw [if_neg hv, htr]
      dsimp only
      rw [hprim]
      rfl

/-- C2 witness: the amended theorem instantiated at the specification's own
example (events at 65s and 3s with texts hi and bye, producing
`1:05 - hi` and `0:03 - bye` in order) and at a zero-event world. -/
theorem C2_timestamp_formatting_witness :
    primaryLoop []
      [⟨some 65000, some [⟨some (str "hi")⟩]⟩, ⟨some 3000, some [⟨some (str "bye")⟩]⟩]
      = [str "1:05 - hi", str "0:03 - bye"]
  ∧ fallbackLoop [] [⟨(65 : Rat), str "hi"⟩, ⟨(3 : Rat), str "bye"⟩]
      = [str "1:05 - hi", str "0:03 - bye"]
  ∧ get_video_timestamps (str "u") ⟨some (str "youtu.be"), str "/abc", []⟩
      ⟨fun _ => PyResult.ok none, true, fun _ => PyResult.ok []⟩ none
      = ApiResult.ok [] := by
  have hthm := C2_timestamp_formatting
  refine ⟨?_, ?_, ?_⟩
  · rw [hthm.1]
    decide
  · rw [hthm.2.1]
    decide
  · exact hthm.2.2 _ _ _ _ none (str "abc") (by decide) rfl rfl
      (fun _ => ⟨by decide, by decide, rfl⟩)

/-- C3: whenever the primary path accumulates no caption text and the
fallback provider (when available and consulted, with the URL resolving to
a non-empty id) returns zero caption events, get_video_captions returns the
literal string `No captions found for video` as a successful value, never
an error. -/
theorem C3_no_captions_literal (url : Str) (pu : ParsedUrl) (P : CaptionProviders)
    (languages : Option (List Str)) (subs : Option (List SubData)) (vid : Str)
    (hurl : url ≠ [])
    (hsubs : P.extractSubs (subtitleslangsOf languages) = PyResult.ok subs)
    (hempty : captionsTextOf subs = [])
    (hapi : P.apiAvailable = true →
      get_youtube_video_id pu = PyResult.ok (some vid) ∧ vid ≠ [] ∧
      P.getTranscript (captionsFallbackCall languages) = PyResult.ok []) :
    get_video_captions url pu P languages = ApiResult.ok (str "No captions found for video") := by
  unfold get_video_captions
  rw [if_neg hurl, hsubs]
  dsimp only
  rw [if_pos hempty]
  cases hav : P.apiAvailable with
  | false => rfl
  | true =>
    obtain ⟨hres, hv, htr⟩ := hapi hav
    rw [if_pos rfl, hres]
    dsimp only
    rw [if_neg hv, htr]
    dsimp only
    rw [if_pos rfl]

/-- C3 witness: a world where yt-dlp yields no subtitles and the transcript
fallback returns zero events for a resolvable URL. -/
theorem C3_no_captions_literal_witness :
    get_video_captions (str "u") ⟨some (str "youtu.be"), str "/abc", []⟩
      ⟨fun _ => PyResult.ok none, true, fun _ => PyResult.ok []⟩ none
      = ApiResult.ok (str "No captions found for video") :=
  C3_no_captions_literal (str "u") ⟨some (str "youtu.be"), str "/abc", []⟩
    ⟨fun _ => PyResult.ok none, true, fun _ => PyResult.ok []⟩ none none (str "abc")
    (by decide) rfl rfl (fun _ => ⟨by decide, by decide, rfl⟩)

/-- C4: the claim is right about the intent and the code is wrong. Both
caption operations raise HTTPException(400, Invalid YouTube URL) for an
unresolvable URL, but that raise sits inside the try block whose blanket
`except Exception` re-wraps every exception as a 500, so the caller
observes an UpstreamFailure-equivalent 500, not the InvalidInput 400 the
claim describes: here both operations, given a non-YouTube host with no
primary captions and the fallback available, answer with status 500. -/
theorem C4_invalid_url_wrapped_as_500 :
    statusOf (get_video_captions (str "https://example.com/watch?v=xyz")
      ⟨some (str "example.com"), str "/watch", str "v=xyz"⟩
      ⟨fun _ => PyResult.ok none, true, fun _ => PyResult.ok []⟩ none) = some 500
  ∧ statusOf (get_video_timestamps (str "https://example.com/watch?v=xyz")
      ⟨some (str "example.com"), str "/watch", str "v=xyz"⟩
      ⟨fun _ => PyResult.ok none, true, fun _ => PyResult.ok []⟩ none) = some 500 := by
  decide

/-- C7 counterexample: with `languages` omitted, get_video_captions does
not leave the primary language selection to the provider: line 96 pins
`subtitleslangs` to `[en]`, exactly as the timestamp variant does. In a
world whose yt-dlp provider returns captions only when asked for exactly
`[en]`, the captions endpoint succeeds with those captions - under the
claim (provider-default selection for the plain-transcript variant) the
primary request would not carry the pinned `[en]` list. -/
theorem C7_captions_primary_pins_en :
    subtitleslangsOf none = [str "en"]
  ∧ get_video_captions (str "u") ⟨none, [], []⟩
      ⟨fun ls => if ls = [str "en"]
          then PyResult.ok (some [SubData.parsed ⟨[⟨some 0, some [⟨some (str "hi")⟩]⟩]⟩])
          else PyResult.ok none,
        false, fun _ => PyResult.ok []⟩ none
      = ApiResult.ok (str "hi") := by
  decide

/-- C7 (amended): with `languages` omitted, get_video_timestamps requests
`[en]` on both provider paths; get_video_captions also requests `[en]` on
its primary yt-dlp path, and only its YouTubeTranscriptApi fallback path
falls back to the provider-default language selection. -/
theorem C7_language_defaults :
    subtitleslangsOf none = [str "en"]
  ∧ timestampsFallbackLangs none = [str "en"]
  ∧ captionsFallbackCall none = TranscriptCall.providerDefault := by
  decide

/-- C8: on success get_video_data returns exactly the fixed eleven-key
record in source order; every value is the provider value for that key
(absent provider fields surface as null, and no value is fabricated). -/
theorem C8_fixed_field_set {V : Type} (info : Str → Option V) (url : Str)
    (hurl : url ≠ []) :
    get_video_data url (PyResult.ok info) = ApiResult.ok (clean_data info)
  ∧ (clean_data info).map Prod.fst = videoDataFields
  ∧ (∀ k v, (k, v) ∈ clean_data info → v = info k) := by
  refine ⟨?_, ?_, ?_⟩
  · unfold get_video_data
    rw [if_neg hurl]
  · simp [clean_data, List.map_map, Function.comp_def]
  · intro k v hmem
    simp only [clean_data, List.mem_map] at hmem
    obtain ⟨k2, hk2, heq⟩ := hmem
    cases heq
    rfl

/-- C8 witness: a provider record carrying only a title; the normalized
record keeps the fixed key set with every other field null. -/
theorem C8_fixed_field_set_witness :
    get_video_data (str "u")
      (PyResult.ok fun k => if k = str "title" then some (str "T") else (none : Option Str))
      = ApiResult.ok (clean_data fun k => if k = str "title" then some (str "T") else none)
  ∧ (clean_data fun k => if k = str "title" then some (str "T") else (none : Option Str)).map Prod.fst
      = videoDataFields :=
  ⟨(C8_fixed_field_set (fun k => if k = str "title" then some (str "T") else none)
      (str "u") (by decide)).1,
   (C8_fixed_field_set (fun k => if k = str "title" then some (str "T") else none)
      (str "u") (by decide)).2.1⟩

/-- C9: for a non-empty channel-name list the result is a mapping with
exactly one entry per requested name, in request order, each entry the
independent scrape outcome of its own channel - so one failing channel can
never abort or drop the others. -/
theorem C9_one_entry_per_channel (w : ChannelWorld) (names : List Str)
    (h : names ≠ []) :
    fetchChannelPosts w names
      = ChannelsResponse.ok (names.map fun n => (n, scrapeChannel w n))
  ∧ (names.map fun n => (n, scrapeChannel w n)).map Prod.fst = names := by
  refine ⟨?_, ?_⟩
  · unfold fetchChannelPosts
    rw [if_neg h]
  · simp [List.map_map, Function.comp_def]

/-- C9 witness: the specification example - channel a answers 404, channel
b succeeds - yields an error record for a and a post list for b, with
neither entry missing. -/
theorem C9_one_entry_per_channel_witness :
    fetchChannelPosts
      ⟨fun n => if n = str "a" then 404 else 200, fun _ => []⟩ [str "a", str "b"]
      = ChannelsResponse.ok
          [(str "a", ChannelResult.errorRecord (str "Failed to fetch channel: 404")),
           (str "b", ChannelResult.posts [])] := by
  have h := (C9_one_entry_per_channel
    ⟨fun n => if n = str "a" then 404 else 200, fun _ => []⟩ [str "a", str "b"]
    (by decide)).1
  rw [h]
  decide

/-- C10: on success the subtitle listing carries the key `manual` exactly
when the provider reported a non-empty manual-subtitles record and the key
`automatic` exactly when it reported a non-empty automatic-captions record;
when neither is reported the result is the empty object, so callers cannot
rely on both keys being present. -/
theorem C10_subtitle_keys {S : Type} (subs autoCaps : Option (List (Str × S)))
    (url : Str) (hurl : url ≠ []) :
    get_available_subtitles url (PyResult.ok (subs, autoCaps))
      = ApiResult.ok (availableSubs subs autoCaps)
  ∧ ((str "manual") ∈ (availableSubs subs autoCaps).map Prod.fst
      ↔ (subs ≠ none ∧ subs ≠ some []))
  ∧ ((str "automatic") ∈ (availableSubs subs autoCaps).map Prod.fst
      ↔ (autoCaps ≠ none ∧ autoCaps ≠ some []))
  ∧ (availableSubs subs autoCaps = []
      ↔ ((subs = none ∨ subs = some []) ∧ (autoCaps = none ∨ autoCaps = some []))) := by
  have hne : ¬ (str "manual" = str "automatic") := by decide
  have hne2 : ¬ (str "automatic" = str "manual") := by decide
  refine ⟨?_, ?_, ?_, ?_⟩
  · unfold get_available_subtitles
    rw [if_neg hurl]
  all_goals
    rcases subs with _ | (_ | ⟨p, l⟩) <;> rcases autoCaps with _ | (_ | ⟨q, m⟩) <;>
      simp [availableSubs, hne, hne2]

/-- C10 witness: a provider reporting one manual track and no automatic
captions yields exactly the `manual` key. -/
theorem C10_subtitle_keys_witness :
    get_available_subtitles (str "u")
      (PyResult.ok (some [(str "en", (0 : Nat))], (none : Option (List (Str × Nat)))))
      = ApiResult.ok [(str "manual", [str "en"])] := by
  have h := (C10_subtitle_keys (some [(str "en", (0 : Nat))])
    (none : Option (List (Str × Nat))) (str "u") (by decide)).1
  rw [h]
  decide

/-- C6 counterexample: the resolver is not exception-free over every input
string. The first statement of get_youtube_video_id is `urlparse(url)`,
and CPython urlsplit raises `ValueError: Invalid IPv6 URL` on a network
location holding a square bracket without its partner - so the bare input
`http://[` (and even a malformed youtu.be URL) makes the function raise
instead of returning an identifier or NotFound, contradicting the claim as
stated. -/
theorem C6_counterexample_invalid_ipv6 :
    get_youtube_video_id_url (str "http://[")
      = PyResult.raised (str "ValueError: Invalid IPv6 URL")
  ∧ get_youtube_video_id_url (str "https://youtu.be]/abc")
      = PyResult.raised (str "ValueError: Invalid IPv6 URL") := by
  decide

/-- C6 (amended): an exception can escape resolve only from the stdlib
urlparse step; everything the repository itself does is total. For every
URL the parser accepts, the string-level function equals the body applied
to the parsed components and never raises; and over every parsed component
triple whatsoever the body returns an identifier or NotFound without
raising - in particular the `split(slash)[2]` indexing on `/embed/` and
`/v/` paths is always in range. -/
theorem C6_raises_only_from_urlparse :
    (∀ url pu, pyUrlparse url = PyResult.ok pu →
      get_youtube_video_id_url url = get_youtube_video_id pu)
  ∧ (∀ pu msg, get_youtube_video_id pu ≠ PyResult.raised msg)
  ∧ (∀ url pu msg, pyUrlparse url = PyResult.ok pu →
      get_youtube_video_id_url url ≠ PyResult.raised msg) := by
  refine ⟨?_, resolver_total_after_parse, ?_⟩
  · intro url pu h
    unfold get_youtube_video_id_url
    rw [h]
  · intro url pu msg h
    unfold get_youtube_video_id_url
    rw [h]
    exact resolver_total_after_parse pu msg

/-- C6 witness: the amended theorem at concrete URLs - a parse that
succeeds feeds the body unchanged and raises nothing, on both a youtu.be
and a watch URL. -/
theorem C6_raises_only_from_urlparse_witness :
    get_youtube_video_id_url (str "https://youtu.be/abc123")
      = get_youtube_video_id ⟨some (str "youtu.be"), str "/abc123", []⟩
  ∧ get_youtube_video_id_url (str "https://www.youtube.com/watch?v=xyz&t=5")
      = PyResult.ok (some (str "xyz"))
  ∧ get_youtube_video_id_url (str "https://www.youtube.com/watch?v=xyz&t=5")
      ≠ PyResult.raised (str "ValueError: Invalid IPv6 URL") := by
  have hthm := C6_raises_only_from_urlparse
  refine ⟨hthm.1 (str "https://youtu.be/abc123") ⟨some (str "youtu.be"), str "/abc123", []⟩ (by decide),
    by decide,
    hthm.2.2 (str "https://www.youtube.com/watch?v=xyz&t=5")
      ⟨some (str "www.youtube.com"), str "/watch", str "v=xyz&t=5"⟩
      (str "ValueError: Invalid IPv6 URL") (by decide)⟩
